import Mathlib

/-!
Shallow embedding of the SoundAnalyzer feature/fingerprint engine
(`src/Analyzer.cpp`, `src/SoundAnalyzer.h`, `src/AnalyzerConfig.h`,
`src/YIN.h`, `src/MFCC.h`).

Machine `unsigned` / `unsigned long` arithmetic is modelled on `Nat` with an
explicit reduction modulo 2^32 at the operations where overflow can matter;
`unsigned short` values reduce modulo 2^16.  `float` / `double` arithmetic is
modelled on `ℚ`; the transcendental library calls (`log`, `exp`, `sqrt`,
`log10`) are passed in as abstract function parameters, so every theorem below
holds for any interpretation of them.  Heap pointers are modelled as `Option`
of fresh allocation identifiers drawn from a world-state counter, which is
what makes buffer identity and the shared static `DefaultRanges` array
observable.
-/

namespace SoundAnalyzer

/-! ### Constants from `AnalyzerConfig.h` -/

def ANALYZER_DEFAULT_GAIN : Nat := 75

def ANALYZER_DEFAULT_MICSENS : ℚ := 5012 / 1000

def ANALYZER_DEFAULT_SAMPLEFREQ : Nat := 44100

def ANALYZER_DEFAULT_FFTLENGTH : Nat := 512

def ANALYZER_DEFAULT_ROLLOFF_PERCENTILE : ℚ := 85 / 100

def ANALYZER_DEFAULT_FUZZFACTOR : Nat := 32

def ANALYZER_DEFAULT_NUMRANGES : Nat := 6

def ANALYZER_DEFAULT_RANGES_256 : List Nat := [5, 10, 20, 40, 80, 256]

def ANALYZER_DEFAULT_MFCC_COEFF : Nat := 13

/-- Modulus of a 32-bit `unsigned` / `unsigned long` on the target platform. -/
def UINT32_MOD : Nat := 2 ^ 32

/-- Modulus of a 16-bit `unsigned short` (`signature_t`, `decibel_t`). -/
def UINT16_MOD : Nat := 2 ^ 16

/-! ### Pointer and state model -/

/-- Identity of the `unsigned *ranges` pointer held in a configuration: either
the process-wide static array `DefaultRanges` (`Analyzer.cpp` line 26) or a
caller-owned array.  The embedded code only ever writes through the default
pointer, so caller-owned arrays are carried by value. -/
inductive RangesPtr where
  | defaultPtr : RangesPtr
  | custom : List Nat → RangesPtr
deriving DecidableEq, Repr

/-- `struct AnalyzerConfig` (`SoundAnalyzer.h` lines 34-55). -/
structure AnalyzerConfig where
  samplefreq : Nat
  fftlength : Nat
  sensitivity : ℚ
  gain : Nat
  roloffpercentile : ℚ
  numranges : Nat
  ranges : RangesPtr
  fuzzfactor : Nat
  mfcccoeff : Nat
deriving DecidableEq, Repr

/-- Process-wide mutable state: the contents of the static `DefaultRanges`
array (initially `ANALYZER_DEFAULT_RANGES_256`) plus a counter handing out
fresh heap addresses for `new`. -/
structure World where
  defaultRanges : List Nat
  nextId : Nat
deriving DecidableEq, Repr

def initialWorld : World :=
  { defaultRanges := ANALYZER_DEFAULT_RANGES_256, nextId := 0 }

/-- Dereference a ranges pointer in a given world. -/
def readRanges (w : World) : RangesPtr → List Nat
  | RangesPtr.defaultPtr => w.defaultRanges
  | RangesPtr.custom l => l

/-- The static default configuration built by `Analyzer::defaultConfig`
(`Analyzer.cpp` lines 43-72); its `ranges` field is the pointer to the static
`DefaultRanges` array. -/
def defaultConfig : AnalyzerConfig :=
  { samplefreq := ANALYZER_DEFAULT_SAMPLEFREQ
    fftlength := ANALYZER_DEFAULT_FFTLENGTH
    sensitivity := ANALYZER_DEFAULT_MICSENS
    gain := ANALYZER_DEFAULT_GAIN
    roloffpercentile := ANALYZER_DEFAULT_ROLLOFF_PERCENTILE
    numranges := ANALYZER_DEFAULT_NUMRANGES
    ranges := RangesPtr.defaultPtr
    fuzzfactor := ANALYZER_DEFAULT_FUZZFACTOR
    mfcccoeff := ANALYZER_DEFAULT_MFCC_COEFF }

/-- The instance state of `Analyzer<T>` (`SoundAnalyzer.h` lines 88-136).
Buffers and subcomponents are `Option` allocation identifiers (`none` =
null pointer).  The `static AnalyzerConfig cfg` local of `getConfig`
(`Analyzer.cpp` line 113) is modelled by `getConfigCache`.  The C++ field
`initialized` is called `inited` here. -/
structure Engine where
  Config : AnalyzerConfig
  Fr : ℚ
  NumBins : Nat
  SignatureLen : Nat
  NumMfccCoeff : Nat
  inited : Bool
  signal : Option Nat
  spectrum : Option Nat
  Bins : Option Nat
  Signature : Option Nat
  FFT : Option Nat
  mfcc : Option Nat
  yin : Option Nat
  getConfigCache : Option AnalyzerConfig
deriving DecidableEq, Repr

/-- Engine state before the constructor body runs: null pointers, not
initialized (C++ in-class member initializers). -/
def freshEngine (cfg : AnalyzerConfig) : Engine :=
  { Config := cfg, Fr := 0, NumBins := 0, SignatureLen := 0, NumMfccCoeff := 0
    inited := false, signal := none, spectrum := none, Bins := none
    Signature := none, FFT := none, mfcc := none, yin := none
    getConfigCache := none }

/-- Which of the six `new` expressions in `Begin` succeed.  On the target
platform (no exceptions) a failed `new` yields a null pointer. -/
structure AllocOracle where
  signalOk : Bool
  spectrumOk : Bool
  fftOk : Bool
  mfccOk : Bool
  sigOk : Bool
  yinOk : Bool
deriving DecidableEq, Repr

/-- One `new` expression: on success hand out a fresh address, on failure a
null pointer. -/
def alloc (w : World) (ok : Bool) : World × Option Nat :=
  if ok then ({ w with nextId := w.nextId + 1 }, some w.nextId) else (w, none)

/-- `Analyzer::End` (`Analyzer.cpp` lines 187-198): frees every buffer and
subcomponent, nulls the pointers, clears `initialized`.  (`Bins`, the public
alias of `spectrum`, is left dangling, exactly as in the source.) -/
def End (e : Engine) : Engine :=
  { e with signal := none, spectrum := none, Signature := none, FFT := none
           mfcc := none, yin := none, inited := false }

/-- The `if (mfcccoeff > 0 && memok)` block of `Begin` (`Analyzer.cpp` lines
155-161): allocate the `MFCC` subcomponent and overwrite `memok` with its
pointer. -/
def beginMfccStep (o : AllocOracle) (mfcccoeff : Nat) (s : World × Engine × Bool) :
    World × Engine × Bool :=
  if mfcccoeff > 0 ∧ s.2.2 = true then
    let q := alloc s.1 o.mfccOk
    (q.1, { s.2.1 with mfcc := q.2 }, q.2.isSome)
  else s

/-- The `if (numranges > 0 && memok)` block of `Begin` (`Analyzer.cpp` lines
164-168): allocate the `Signature` buffer and overwrite `memok`. -/
def beginSigStep (o : AllocOracle) (numranges : Nat) (s : World × Engine × Bool) :
    World × Engine × Bool :=
  if numranges > 0 ∧ s.2.2 = true then
    let q := alloc s.1 o.sigOk
    (q.1, { s.2.1 with Signature := q.2 }, q.2.isSome)
  else s

/-- The `if (memok)` block of `Begin` (`Analyzer.cpp` lines 170-174): allocate
the `YIN` subcomponent and overwrite `memok`. -/
def beginYinStep (o : AllocOracle) (s : World × Engine × Bool) : World × Engine × Bool :=
  if s.2.2 = true then
    let q := alloc s.1 o.yinOk
    (q.1, { s.2.1 with yin := q.2 }, q.2.isSome)
  else s

/-- `Analyzer::Begin` (`Analyzer.cpp` lines 125-184), the lazy allocator.
Returns the new world, the new engine state and the `bool` result.  Faithful
points: the early return when already initialized precedes every allocation;
`memok` for the three core allocations is the *disjunction*
`(signal || spectrum || FFT)` exactly as written on line 148; each later
allocation overwrites `memok` with its own pointer; the failure path returns
`false` without any teardown. -/
def Begin (w : World) (e : Engine) (o : AllocOracle) : World × Engine × Bool :=
  if e.inited then (w, e, true)
  else
    let p1 := alloc w o.signalOk
    let p2 := alloc p1.1 o.spectrumOk
    let p3 := alloc p2.1 o.fftOk
    let e1 := { e with
      Fr := (e.Config.samplefreq : ℚ) / (e.Config.fftlength : ℚ)
      NumBins := e.Config.fftlength / 2
      signal := p1.2, spectrum := p2.2, FFT := p3.2, Bins := p2.2 }
    let memok := p1.2.isSome || p2.2.isSome || p3.2.isSome
    let s := beginYinStep o
      (beginSigStep o e.Config.numranges
        (beginMfccStep o e.Config.mfcccoeff (p3.1, e1, memok)))
    if s.2.2 then (s.1, { s.2.1 with inited := true }, true)
    else (s.1, s.2.1, false)

/-- The in-place rescaling loop of `setConfig` (`Analyzer.cpp` lines 98-102):
entry `i < n` becomes `r * L / ANALYZER_DEFAULT_FFTLENGTH` in 32-bit unsigned
arithmetic; entries at or beyond `n` are untouched (the loop runs `i < n`). -/
def rescaleRanges (l : List Nat) (n L : Nat) : List Nat :=
  match l, n with
  | [], _ => []
  | l, 0 => l
  | v :: rest, Nat.succ m =>
      (v * L % UINT32_MOD / ANALYZER_DEFAULT_FFTLENGTH) :: rescaleRanges rest m L

/-- `Analyzer::setConfig` (`Analyzer.cpp` lines 75-107).  Tears the engine
down first when already initialized and one of the four sizing parameters
changed; stores the new configuration; when the transform length differs from
the default *and* the configured ranges pointer is the static `DefaultRanges`
array, rescales that shared array in place and recomputes the stored fuzz
factor from the compile-time default; finally calls `Begin`, discarding its
boolean result (`setConfig` is `void`). -/
def setConfig (w : World) (e : Engine) (newCfg : AnalyzerConfig) (o : AllocOracle) :
    World × Engine :=
  let e :=
    if e.inited = true ∧
        (newCfg.fftlength ≠ e.Config.fftlength ∨ newCfg.samplefreq ≠ e.Config.samplefreq ∨
         newCfg.numranges ≠ e.Config.numranges ∨ newCfg.mfcccoeff ≠ e.Config.mfcccoeff)
    then End e else e
  let e := { e with Config := newCfg
                    Fr := (newCfg.samplefreq : ℚ) / (newCfg.fftlength : ℚ)
                    NumBins := newCfg.fftlength / 2
                    SignatureLen := newCfg.numranges
                    NumMfccCoeff := newCfg.mfcccoeff }
  let we :=
    if newCfg.fftlength ≠ ANALYZER_DEFAULT_FFTLENGTH ∧ newCfg.ranges = RangesPtr.defaultPtr then
      ({ w with defaultRanges := rescaleRanges w.defaultRanges newCfg.numranges newCfg.fftlength },
       { e with Config :=
          { newCfg with fuzzfactor :=
              ANALYZER_DEFAULT_FUZZFACTOR * newCfg.fftlength % UINT32_MOD /
                ANALYZER_DEFAULT_FFTLENGTH } })
    else (w, e)
  let r := Begin we.1 we.2 o
  (r.1, r.2.1)

/-- `Analyzer::getConfig` (`Analyzer.cpp` lines 110-115): a function-local
`static` copy of `Config`, made on the first call and returned by reference
ever after. -/
def getConfig (e : Engine) : Engine × AnalyzerConfig :=
  match e.getConfigCache with
  | none => ({ e with getConfigCache := some e.Config }, e.Config)
  | some c => (e, c)

/-! ### Fingerprint hash (`SoundAnalyzer.h` lines 110-114, `Analyzer.cpp`
lines 324-330) -/

/-- The fuzz quantization `sig[off] - (sig[off] % Config.fuzzfactor)` applied
to a signature value before it enters the hash. -/
def quantize (fz v : Nat) : Nat := v - v % fz

/-- `Analyzer::signatureHash` (`SoundAnalyzer.h` lines 112-114): the djb2
variant `off == nr ? 5381 : (signatureHash(sig,nr,off+1)*33) ^ quant(sig[off])`,
embedded over the list of the elements `sig[off..nr)`.  The accumulator is a
32-bit `unsigned long`, so the product is reduced modulo 2^32; signature
values are 16-bit, so the xor of two values below 2^32 needs no reduction. -/
def signatureHash (fz : Nat) : List Nat → Nat
  | [] => 5381
  | v :: rest => (signatureHash fz rest * 33 % UINT32_MOD) ^^^ quantize fz v

/-- `Analyzer::getSignatureHash` (`Analyzer.cpp` lines 325-330): hash the
parameter signature if one is given, else the member `Signature` buffer, over
`SignatureLen` elements (here: the list of those elements). -/
def getSignatureHash (fz : Nat) (member : List Nat) (param : Option (List Nat)) : Nat :=
  signatureHash fz (param.getD member)

/-! ### Fingerprint generator (`Analyzer.cpp` lines 273-322)

The magnitude spectrum is a `Nat → ℚ` function (the caller-visible part of
the `float` array); `log` enters as an abstract parameter `logf`. -/

/-- Body of the `rangeIndex` lambda (`Analyzer.cpp` lines 294-300): scan the
candidate range indices in order, return the first `r` with
`ranges[r] > idx`. -/
def rangeLoop (ranges : List Nat) (idx : Nat) : List Nat → Option Nat
  | [] => none
  | r :: rest => if idx < ranges.getD r 0 then some r else rangeLoop ranges idx rest

/-- The `rangeIndex` lambda (`Analyzer.cpp` lines 294-300): first range whose
boundary exceeds the bin index, else `numranges - 1` (the guard against a
configuration whose last boundary was forgotten). -/
def rangeIndex (ranges : List Nat) (numranges idx : Nat) : Nat :=
  match rangeLoop ranges idx (List.range numranges) with
  | some r => r
  | none => numranges - 1

/-- The stored signature value `(signature_t) int(frequency(i))`
(`Analyzer.cpp` line 311 with `SoundAnalyzer.h` line 83): `i * Fr` truncated
to an integer and narrowed to `unsigned short`.  (`Fr ≥ 0` in any reachable
configuration, where truncation towards zero is the floor.) -/
def sigOf (Fr : ℚ) (i : Nat) : Nat := (Int.floor ((i : ℚ) * Fr)).toNat % UINT16_MOD

/-- One iteration of the peak-scan loop of `getSignature` (`Analyzer.cpp`
lines 305-314); the state is the pair of the `Signature` and `mags` arrays. -/
def signatureScanStep (logf : ℚ → ℚ) (Fr : ℚ) (ranges : List Nat) (numranges : Nat)
    (bins : Nat → ℚ) (s : List Nat × List ℚ) (i : Nat) : List Nat × List ℚ :=
  let r := rangeIndex ranges numranges i
  let mag := logf (|bins i| + 1)
  if mag > s.2.getD r 0 then (s.1.set r (sigOf Fr i), s.2.set r mag) else s

/-- The peak-scan loop of `getSignature` over bins `1 .. NumBins-1`, starting
from the zero-initialized `Signature` and `mags` arrays (`Analyzer.cpp`
lines 286-314). -/
def signatureScan (logf : ℚ → ℚ) (Fr : ℚ) (numranges : Nat) (ranges : List Nat)
    (bins : Nat → ℚ) (NumBins : Nat) : List Nat × List ℚ :=
  (List.range' 1 (NumBins - 1)).foldl
    (signatureScanStep logf Fr ranges numranges bins)
    (List.replicate numranges 0, List.replicate numranges 0)

/-- `Analyzer::getSignature` (`Analyzer.cpp` lines 273-322): `none` models the
early `return 0` when `numranges` is zero; otherwise scan for per-range peak
log-magnitudes, then zero every range whose peak log-magnitude is below the
mean of all per-range peaks. -/
def getSignature (logf : ℚ → ℚ) (Fr : ℚ) (numranges : Nat) (ranges : List Nat)
    (bins : Nat → ℚ) (NumBins : Nat) : Option (List Nat) :=
  if numranges = 0 then none
  else
    let scan := signatureScan logf Fr numranges ranges bins NumBins
    let avg := scan.2.foldl (fun a b => a + b) 0 / (numranges : ℚ)
    some ((List.range numranges).map
      (fun r => if scan.2.getD r 0 < avg then 0 else scan.1.getD r 0))

/-! ### Spectral statistics (`Analyzer.cpp` lines 336-445)

`log`, `exp` and `sqrt` are abstract parameters; `sq(x)` is `x * x`; the
`pow(x, 2)` and `pow(x, 3)` library calls are the exact powers. -/

/-- The ten `Features` slots (`AnalyzerConfig.h` lines 49-52), in enum
order. -/
structure Features where
  peakfreq : ℚ
  peakmag : ℚ
  avgmag : ℚ
  spread : ℚ
  skewness : ℚ
  centroid : ℚ
  flatness : ℚ
  crest : ℚ
  kurtosis : ℚ
  rolloff : ℚ
deriving DecidableEq, Repr

/-- Accumulators of the first loop of `getFeatures` (`Analyzer.cpp` lines
346-386). -/
structure SpecAccum where
  sumAmplitudes : ℚ
  sumWeightedAmplitudes : ℚ
  logSumfVal : ℚ
  sumfVal : ℚ
  sumcVal : ℚ
  maxcVal : ℚ
  peakMag : ℚ
  peakFreq : ℚ
deriving DecidableEq, Repr

/-- One iteration of the first loop of `getFeatures` (`Analyzer.cpp` lines
364-386). -/
def featuresLoop1Step (logf : ℚ → ℚ) (Fr : ℚ) (bins : Nat → ℚ)
    (s : SpecAccum) (i : Nat) : SpecAccum :=
  let Mag := bins i
  let f := 1 + Mag
  let c := Mag * Mag
  { sumAmplitudes := s.sumAmplitudes + Mag
    sumWeightedAmplitudes := s.sumWeightedAmplitudes + Mag * i
    logSumfVal := s.logSumfVal + logf f
    sumfVal := s.sumfVal + f
    sumcVal := s.sumcVal + c
    maxcVal := if c > s.maxcVal then c else s.maxcVal
    peakMag := if Mag > s.peakMag then Mag else s.peakMag
    peakFreq := if Mag > s.peakMag then (i : ℚ) * Fr else s.peakFreq }

/-- Accumulators of the second loop of `getFeatures` (`Analyzer.cpp` lines
403-432). -/
structure MomentAccum where
  spread_sum : ℚ
  skewness_sum : ℚ
  rolloff : ℚ
  roloff_sum : ℚ
  moment2 : ℚ
  moment4 : ℚ
deriving DecidableEq, Repr

/-- One iteration of the second loop of `getFeatures` (`Analyzer.cpp` lines
413-432). -/
def featuresLoop2Step (NumBins : Nat) (centroid meanVal threshold : ℚ)
    (bins : Nat → ℚ) (s : MomentAccum) (i : Nat) : MomentAccum :=
  let Mag := bins i
  let d := (i : ℚ) - centroid
  let s1 := { s with spread_sum := s.spread_sum + d ^ 2 * Mag
                     skewness_sum := s.skewness_sum + d ^ 3 * Mag }
  let s2 :=
    if s1.rolloff = 0 then
      if s1.roloff_sum > threshold then { s1 with rolloff := (i : ℚ) / (NumBins : ℚ) }
      else { s1 with roloff_sum := s1.roloff_sum + Mag }
    else s1
  let difference := Mag - meanVal
  let squaredDifference := difference * difference
  { s2 with moment2 := s2.moment2 + squaredDifference
            moment4 := s2.moment4 + squaredDifference * squaredDifference }

/-- `Analyzer::getFeatures` (`Analyzer.cpp` lines 336-445): both loops run
over bins `1 .. NumBins-1` (bin 0, the DC bin, is excluded), then the ten
feature slots are filled with their degenerate-case fallbacks: centroid 0,
flatness 0, crest 1, kurtosis -3 when the respective denominator term is
zero or not positive. -/
def getFeatures (logf expf sqrtf : ℚ → ℚ) (pct Fr : ℚ) (bins : Nat → ℚ)
    (NumBins : Nat) : Features :=
  let a := (List.range' 1 (NumBins - 1)).foldl (featuresLoop1Step logf Fr bins)
    ⟨0, 0, 0, 0, 0, 0, 0, 0⟩
  let sumf := a.sumfVal / (NumBins : ℚ)
  let logsumf := a.logSumfVal / (NumBins : ℚ)
  let meanVal := a.sumAmplitudes / (NumBins : ℚ)
  let meancVal := a.sumcVal / (NumBins : ℚ)
  let centroid := if a.sumAmplitudes > 0 then a.sumWeightedAmplitudes / a.sumAmplitudes else 0
  let threshold := pct * a.sumAmplitudes
  let m := (List.range' 1 (NumBins - 1)).foldl
    (featuresLoop2Step NumBins centroid meanVal threshold bins) ⟨0, 0, 0, 0, 0, 0⟩
  let spread := sqrtf (m.spread_sum / a.sumAmplitudes)
  let moment2 := m.moment2 / (NumBins : ℚ)
  let moment4 := m.moment4 / (NumBins : ℚ)
  { peakfreq := a.peakFreq
    peakmag := a.peakMag
    avgmag := meanVal
    spread := spread
    skewness := m.skewness_sum / a.sumAmplitudes / spread ^ 3
    centroid := centroid
    flatness := if sumf > 0 then expf logsumf / sumf else 0
    crest := if a.sumcVal > 0 then a.maxcVal / meancVal else 1
    kurtosis := if moment2 = 0 then -3 else moment4 / (moment2 * moment2) - 3
    rolloff := m.rolloff }

/-! ### RMS, decibel SPL, MFCC entry point (`Analyzer.cpp` lines 200-244 and
447-463) -/

/-- `round` from libm (half away from zero), used by `decibelSPL` and by the
YIN continuity search. -/
def roundQ (q : ℚ) : Int := if 0 ≤ q then Int.floor (q + 1 / 2) else -Int.floor (-q + 1 / 2)

/-- `Analyzer::rms` (`Analyzer.cpp` lines 202-214): square root of the mean
squared absolute sample value over `siglen` samples, `siglen = 0` meaning the
configured transform length.  `sqrt` is the abstract parameter `sqrtf`. -/
def rms (sqrtf : ℚ → ℚ) (fftlength : Nat) (signal : Nat → ℚ) (siglen : Nat) : ℚ :=
  let len := if siglen = 0 then fftlength else siglen
  let s := (List.range len).foldl (fun acc i => acc + |signal i| * |signal i|) 0
  sqrtf (s / (len : ℚ))

/-- `Analyzer::decibelSPL` (`Analyzer.cpp` lines 220-244):
`round(20*log10(rms/sensitivity) - gain + 94)` narrowed to `decibel_t`
(`unsigned short`).  There is no special case for `sensitivity == 0`: the
formula is evaluated unconditionally. -/
def decibelSPL (log10f sqrtf : ℚ → ℚ) (cfg : AnalyzerConfig) (signal : Nat → ℚ)
    (siglen : Nat) : Nat :=
  let vRms := rms sqrtf cfg.fftlength signal siglen
  let dBv := 20 * log10f (vRms / cfg.sensitivity)
  let dB := dBv - (cfg.gain : ℚ) + 94
  (roundQ dB).toNat % UINT16_MOD

/-- `Analyzer::getMfcc` (`Analyzer.cpp` lines 447-463) at the granularity of
the claims: the MFCC numeric pipeline (`MFCC.h`, a separate component none of
the claims describe) enters as the abstract component function `mfccCalc`;
the guard `Config.mfcccoeff > 0` and the `nullptr` return are from the
source. -/
def getMfcc (mfccCalc : (Nat → ℚ) → List ℚ) (cfg : AnalyzerConfig) (bins : Nat → ℚ) :
    Option (List ℚ) :=
  if cfg.mfcccoeff > 0 then some (mfccCalc bins) else none

/-! ### YIN pitch estimator (`YIN.h`)

The frame is a `Nat → ℚ` function; `framesz` and `fs` are the constructor
parameters.  All arithmetic in `YIN.h` is field arithmetic on `float`,
modelled exactly on `ℚ`. -/

/-- The raw squared-difference sum for lag `tau` (`YIN.h` lines 239-243):
`sum over j < L of (frame[j] - frame[j+tau])^2`. -/
def diffFunction (f : Nat → ℚ) (L tau : Nat) : ℚ :=
  (List.range L).foldl (fun acc j => acc + (f j - f (j + tau)) * (f j - f (j + tau))) 0

/-- The running cumulative sum of the raw difference values up to and
including lag `tau` (`YIN.h` line 246; each raw value is added before its own
entry is normalised). -/
def cumSum (f : Nat → ℚ) (L tau : Nat) : ℚ :=
  (List.range (tau + 1)).foldl (fun acc t => acc + diffFunction f L t) 0

/-- `YIN::cumulativeMeanNormalisedDifferenceFunction` (`YIN.h` lines
225-256), as the value of `delta[tau]` after the call: entry `tau` is
normalised by `tau / cumulativeSum` only while the cumulative sum is
positive, and entry 0 is forced to 1 at the end. -/
def delta (f : Nat → ℚ) (L tau : Nat) : ℚ :=
  if tau = 0 then 1
  else if cumSum f L tau > 0 then diffFunction f L tau * (tau : ℚ) / cumSum f L tau
  else diffFunction f L tau

/-- The bounds-plus-local-minimum test of one candidate `i` in
`YIN::searchForOtherRecentMinima` (`YIN.h` lines 138-147). -/
def recentMinimaCheck (d : Nat → ℚ) (L : Nat) (i : Int) : Bool :=
  decide (0 < i) && decide (i < (L : Int) - 1) &&
  decide (d i.toNat < d (i.toNat - 1)) && decide (d i.toNat < d (i.toNat + 1))

/-- `YIN::searchForOtherRecentMinima` (`YIN.h` lines 130-150): test the three
lags around the rounded previous period estimate; the last qualifying lag
wins; `-1` when none qualifies. -/
def searchForOtherRecentMinima (d : Nat → ℚ) (L : Nat) (prev : ℚ) : Int :=
  let p := roundQ prev
  let m1 : Int := -1
  let m2 := if recentMinimaCheck d L (p - 1) then p - 1 else m1
  let m3 := if recentMinimaCheck d L p then p else m2
  if recentMinimaCheck d L (p + 1) then p + 1 else m3

/-- The scan loop of `YIN::getPeriodCandidate` (`YIN.h` lines 191-211) over
the remaining candidate lags, carrying `(minVal, minInd)`; breaks at the
first lag below the threshold 0.1 that is a strict local minimum, else falls
back to the global-minimum lag. -/
def periodCandidateLoop (d : Nat → ℚ) : List Nat → ℚ × Nat → Nat
  | [], s => s.2
  | i :: rest, s =>
    let s := if d i < s.1 then (d i, i) else s
    if d i < 1 / 10 ∧ d i < d (i - 1) ∧ d i < d (i + 1) then i
    else periodCandidateLoop d rest s

/-- `YIN::getPeriodCandidate` (`YIN.h` lines 179-219): scan lags from the
fixed floor 30 up to `L - 2`, with `minVal` starting at 100000 and `minInd`
at 0. -/
def getPeriodCandidate (d : Nat → ℚ) (L : Nat) : Nat :=
  periodCandidateLoop d (List.range' 30 (L - 1 - 30)) (100000, 0)

/-- `YIN::parabolicInterpolation` (`YIN.h` lines 159-173): guarded against
the all-equal case, else the parabolic vertex shift. -/
def parabolicInterpolation (period : Nat) (y1 y2 y3 : ℚ) : ℚ :=
  if y3 = y2 ∧ y2 = y1 then (period : ℚ)
  else (period : ℚ) + (y3 - y1) / (2 * (2 * y2 - y3 - y1))

/-- The lag chosen by `YIN::pitchYin` before interpolation (`YIN.h` lines
81-93): the continuity candidate when the search near the previous estimate
found one, else the fresh period candidate. -/
def chosenPeriod (f : Nat → ℚ) (L : Nat) (prev : ℚ) : Nat :=
  let cp := searchForOtherRecentMinima (delta f L) L prev
  if cp = -1 then getPeriodCandidate (delta f L) L else cp.toNat

/-- `YIN::pitchYin` (`YIN.h` lines 71-111).  Returns the pitch
`fs / fPeriod` together with the new `prevPeriodEstimate` (the refined
period), making the persisted state explicit. -/
def pitchYin (fs framesz : Nat) (prev : ℚ) (f : Nat → ℚ) : ℚ × ℚ :=
  let L := framesz / 2
  let d := delta f L
  let period := chosenPeriod f L prev
  let fPeriod : ℚ :=
    if 0 < period ∧ period < L - 1 then
      parabolicInterpolation period (d (period - 1)) (d period) (d (period + 1))
    else (period : ℚ)
  ((fs : ℚ) / fPeriod, fPeriod)

/-- An allocation oracle in which every `new` succeeds. -/
def allAlloc : AllocOracle := ⟨true, true, true, true, true, true⟩

/-- A world/engine pair after one successful default configuration: the state
produced by the default constructor (`Analyzer.cpp` lines 28-33). -/
def demoInited : World × Engine :=
  setConfig initialWorld (freshEngine defaultConfig) defaultConfig allAlloc

/-! ## Helper lemmas: allocation and `Begin` step preservation -/

theorem alloc_defaultRanges (w : World) (b : Bool) :
    (alloc w b).1.defaultRanges = w.defaultRanges := by
  unfold alloc; split <;> rfl

theorem beginMfccStep_preserves (o : AllocOracle) (m : Nat) (s : World × Engine × Bool) :
    (beginMfccStep o m s).1.defaultRanges = s.1.defaultRanges ∧
    (beginMfccStep o m s).2.1.signal = s.2.1.signal ∧
    (beginMfccStep o m s).2.1.spectrum = s.2.1.spectrum ∧
    (beginMfccStep o m s).2.1.FFT = s.2.1.FFT ∧
    (beginMfccStep o m s).2.1.inited = s.2.1.inited ∧
    (beginMfccStep o m s).2.1.getConfigCache = s.2.1.getConfigCache := by
  unfold beginMfccStep; split <;> simp [alloc_defaultRanges]

theorem beginSigStep_preserves (o : AllocOracle) (n : Nat) (s : World × Engine × Bool) :
    (beginSigStep o n s).1.defaultRanges = s.1.defaultRanges ∧
    (beginSigStep o n s).2.1.signal = s.2.1.signal ∧
    (beginSigStep o n s).2.1.spectrum = s.2.1.spectrum ∧
    (beginSigStep o n s).2.1.FFT = s.2.1.FFT ∧
    (beginSigStep o n s).2.1.inited = s.2.1.inited ∧
    (beginSigStep o n s).2.1.getConfigCache = s.2.1.getConfigCache := by
  unfold beginSigStep; split <;> simp [alloc_defaultRanges]

theorem beginYinStep_preserves (o : AllocOracle) (s : World × Engine × Bool) :
    (beginYinStep o s).1.defaultRanges = s.1.defaultRanges ∧
    (beginYinStep o s).2.1.signal = s.2.1.signal ∧
    (beginYinStep o s).2.1.spectrum = s.2.1.spectrum ∧
    (beginYinStep o s).2.1.FFT = s.2.1.FFT ∧
    (beginYinStep o s).2.1.inited = s.2.1.inited ∧
    (beginYinStep o s).2.1.getConfigCache = s.2.1.getConfigCache := by
  unfold beginYinStep; split <;> simp [alloc_defaultRanges]

theorem beginYinStep_fail (o : AllocOracle) (s : World × Engine × Bool)
    (hy : o.yinOk = false) : (beginYinStep o s).2.2 = false := by
  unfold beginYinStep
  split
  · simp [alloc, hy]
  · rename_i h; simpa using h

theorem Begin_of_inited (w : World) (e : Engine) (o : AllocOracle) (h : e.inited = true) :
    Begin w e o = (w, e, true) := by
  unfold Begin; simp [h]

theorem Begin_defaultRanges (w : World) (e : Engine) (o : AllocOracle) :
    (Begin w e o).1.defaultRanges = w.defaultRanges := by
  unfold Begin
  split
  · rfl
  · dsimp only
    split <;>
    simp [beginYinStep_preserves, beginSigStep_preserves, beginMfccStep_preserves,
      alloc_defaultRanges]

theorem Begin_cache (w : World) (e : Engine) (o : AllocOracle) :
    (Begin w e o).2.1.getConfigCache = e.getConfigCache := by
  unfold Begin
  split
  · rfl
  · dsimp only
    split <;>
    simp [beginYinStep_preserves, beginSigStep_preserves, beginMfccStep_preserves]

theorem beginMfccStep_Config (o : AllocOracle) (m : Nat) (s : World × Engine × Bool) :
    (beginMfccStep o m s).2.1.Config = s.2.1.Config := by
  unfold beginMfccStep; split <;> rfl

theorem beginSigStep_Config (o : AllocOracle) (n : Nat) (s : World × Engine × Bool) :
    (beginSigStep o n s).2.1.Config = s.2.1.Config := by
  unfold beginSigStep; split <;> rfl

theorem beginYinStep_Config (o : AllocOracle) (s : World × Engine × Bool) :
    (beginYinStep o s).2.1.Config = s.2.1.Config := by
  unfold beginYinStep; split <;> rfl

theorem Begin_Config (w : World) (e : Engine) (o : AllocOracle) :
    (Begin w e o).2.1.Config = e.Config := by
  unfold Begin
  split
  · rfl
  · dsimp only
    split <;> simp [beginYinStep_Config, beginSigStep_Config, beginMfccStep_Config]

theorem setConfig_cache (w : World) (e : Engine) (cfg : AnalyzerConfig) (o : AllocOracle) :
    (setConfig w e cfg o).2.getConfigCache = e.getConfigCache := by
  unfold setConfig
  split <;> split <;> simp [Begin_cache, End]

theorem setConfig_samplefreq (w : World) (e : Engine) (cfg : AnalyzerConfig)
    (o : AllocOracle) :
    (setConfig w e cfg o).2.Config.samplefreq = cfg.samplefreq := by
  unfold setConfig
  split <;> split <;> simp [Begin_Config]

theorem getConfig_of_none (e : Engine) (h : e.getConfigCache = none) :
    getConfig e = ({ e with getConfigCache := some e.Config }, e.Config) := by
  unfold getConfig; rw [h]

theorem getConfig_of_some (e : Engine) (c : AnalyzerConfig)
    (h : e.getConfigCache = some c) : getConfig e = (e, c) := by
  unfold getConfig; rw [h]

theorem rescaleRanges_eq_map (l : List Nat) (L : Nat) :
    rescaleRanges l l.length L
      = l.map (fun v => v * L % UINT32_MOD / ANALYZER_DEFAULT_FFTLENGTH) := by
  induction l with
  | nil => rfl
  | cons v rest ih => simp [rescaleRanges, ih]

theorem setConfig_world_rescale (w : World) (e : Engine) (cfg : AnalyzerConfig)
    (o : AllocOracle) (hr : cfg.ranges = RangesPtr.defaultPtr)
    (hL : cfg.fftlength ≠ ANALYZER_DEFAULT_FFTLENGTH) :
    (setConfig w e cfg o).1.defaultRanges
      = rescaleRanges w.defaultRanges cfg.numranges cfg.fftlength ∧
    (setConfig w e cfg o).2.Config.fuzzfactor
      = ANALYZER_DEFAULT_FUZZFACTOR * cfg.fftlength % UINT32_MOD /
          ANALYZER_DEFAULT_FFTLENGTH ∧
    (setConfig w e cfg o).2.Config.ranges = RangesPtr.defaultPtr ∧
    (setConfig w e cfg o).2.Config.fftlength = cfg.fftlength ∧
    (setConfig w e cfg o).2.Config.numranges = cfg.numranges := by
  unfold setConfig
  split <;> simp [hr, hL, Begin_defaultRanges, Begin_Config]

/-! ## Claim C1: allocation failure during configuration -/

/-- C1 counterexample.  The claim states that any allocation failure is
reported via the boolean result and leaves the engine with no previously
allocated buffer still owned.  Both halves fail on the code: when the `YIN`
allocation fails after the earlier allocations succeeded, `Begin` returns
`false` but the `signal` buffer (address 0) and `Signature` buffer
(address 4) are still owned; and when only the `signal` allocation fails,
the disjunctive check `(signal || spectrum || FFT)` hides the failure and
`Begin` returns `true`. -/
theorem Begin_partial_state_counterexample :
    (Begin initialWorld (freshEngine defaultConfig) ⟨true, true, true, true, true, false⟩).2.2
        = false ∧
    (Begin initialWorld (freshEngine defaultConfig)
        ⟨true, true, true, true, true, false⟩).2.1.signal = some 0 ∧
    (Begin initialWorld (freshEngine defaultConfig)
        ⟨true, true, true, true, true, false⟩).2.1.Signature = some 4 ∧
    (Begin initialWorld (freshEngine defaultConfig) ⟨false, true, true, true, true, true⟩).2.2
        = true := by
  decide

/-- C1 (amended): if the `YIN` allocation fails while the `signal`, `spectrum`
and `FFT` allocations succeed, `Begin` reports `false` and leaves the
`initialized` flag clear, but the engine is not torn down — the three earlier
buffers remain owned at their freshly allocated addresses. -/
theorem Begin_alloc_failure_no_teardown (w : World) (e : Engine) (o : AllocOracle)
    (hini : e.inited = false) (hs : o.signalOk = true) (hp : o.spectrumOk = true)
    (hf : o.fftOk = true) (hy : o.yinOk = false) :
    (Begin w e o).2.2 = false ∧
    (Begin w e o).2.1.inited = false ∧
    (Begin w e o).2.1.signal = some w.nextId ∧
    (Begin w e o).2.1.spectrum = some (w.nextId + 1) ∧
    (Begin w e o).2.1.FFT = some (w.nextId + 2) := by
  unfold Begin
  simp only [hini, Bool.false_eq_true, if_false]
  simp [beginYinStep_fail, hy, beginYinStep_preserves, beginSigStep_preserves,
    beginMfccStep_preserves, alloc, hs, hp, hf, hini]

/-- C1 witness: the amended theorem at the fresh default engine with a failing
`YIN` allocation. -/
theorem Begin_alloc_failure_no_teardown_witness :
    ((freshEngine defaultConfig).inited = false ∧
      (AllocOracle.mk true true true true true false).signalOk = true ∧
      (AllocOracle.mk true true true true true false).spectrumOk = true ∧
      (AllocOracle.mk true true true true true false).fftOk = true ∧
      (AllocOracle.mk true true true true true false).yinOk = false) ∧
    ((Begin initialWorld (freshEngine defaultConfig)
        (AllocOracle.mk true true true true true false)).2.2 = false ∧
      (Begin initialWorld (freshEngine defaultConfig)
        (AllocOracle.mk true true true true true false)).2.1.inited = false ∧
      (Begin initialWorld (freshEngine defaultConfig)
        (AllocOracle.mk true true true true true false)).2.1.signal
          = some initialWorld.nextId ∧
      (Begin initialWorld (freshEngine defaultConfig)
        (AllocOracle.mk true true true true true false)).2.1.spectrum
          = some (initialWorld.nextId + 1) ∧
      (Begin initialWorld (freshEngine defaultConfig)
        (AllocOracle.mk true true true true true false)).2.1.FFT
          = some (initialWorld.nextId + 2)) :=
  ⟨⟨rfl, rfl, rfl, rfl, rfl⟩,
    Begin_alloc_failure_no_teardown initialWorld (freshEngine defaultConfig)
      (AllocOracle.mk true true true true true false) rfl rfl rfl rfl rfl⟩

/-! ## Claim C2: rescaling of the default fingerprint ranges -/

/-- C2 counterexample.  The claim states that applying a configuration with
the default range set and transform length 512 rescales the boundaries to
`{10,20,40,80,160,512}` and the fuzz factor to 64.  In the code the rescale
only triggers when the transform length differs from the default 512, so at
512 the shared array keeps the baseline `{5,10,20,40,80,256}` and the fuzz
factor stays 32. -/
theorem setConfig_len512_no_rescale_counterexample :
    (setConfig initialWorld (freshEngine defaultConfig) defaultConfig
        ⟨true, true, true, true, true, true⟩).1.defaultRanges = [5, 10, 20, 40, 80, 256] ∧
    (setConfig initialWorld (freshEngine defaultConfig) defaultConfig
        ⟨true, true, true, true, true, true⟩).2.Config.fuzzfactor = 32 ∧
    (setConfig initialWorld (freshEngine defaultConfig) defaultConfig
        ⟨true, true, true, true, true, true⟩).1.defaultRanges ≠ [10, 20, 40, 80, 160, 512] := by
  decide

/-- C2 (amended): the proportional rescale of the default range set by
`L / 512` happens only when the transform length `L` differs from the default
512; at `L = 1024` it produces exactly the boundaries `{10,20,40,80,160,512}`
and fuzz factor 64 claimed in the spec (at `L = 512` nothing is rescaled, per
the counterexample). -/
theorem setConfig_rescale_happens_at_1024 :
    (setConfig initialWorld (freshEngine { defaultConfig with fftlength := 1024 })
        { defaultConfig with fftlength := 1024 }
        ⟨true, true, true, true, true, true⟩).1.defaultRanges = [10, 20, 40, 80, 160, 512] ∧
    (setConfig initialWorld (freshEngine { defaultConfig with fftlength := 1024 })
        { defaultConfig with fftlength := 1024 }
        ⟨true, true, true, true, true, true⟩).2.Config.fuzzfactor = 64 := by
  decide

/-! ## Claim C3: no reallocation when sizing parameters are unchanged -/

/-- C3: reapplying a configuration to an initialized engine without changing
transform length, sample rate, range count or coefficient count leaves the
identity of every engine-owned buffer and subcomponent (`signal`, `spectrum`,
`Signature`, `FFT`, `mfcc`, `yin`) unchanged: the teardown branch of
`setConfig` is not taken and `Begin` returns early. -/
theorem setConfig_no_resize_buffer_identity (w : World) (e : Engine)
    (cfg : AnalyzerConfig) (o : AllocOracle) (hini : e.inited = true)
    (h1 : cfg.fftlength = e.Config.fftlength) (h2 : cfg.samplefreq = e.Config.samplefreq)
    (h3 : cfg.numranges = e.Config.numranges) (h4 : cfg.mfcccoeff = e.Config.mfcccoeff) :
    (setConfig w e cfg o).2.signal = e.signal ∧
    (setConfig w e cfg o).2.spectrum = e.spectrum ∧
    (setConfig w e cfg o).2.Signature = e.Signature ∧
    (setConfig w e cfg o).2.FFT = e.FFT ∧
    (setConfig w e cfg o).2.mfcc = e.mfcc ∧
    (setConfig w e cfg o).2.yin = e.yin := by
  unfold setConfig
  simp only [h1, h2, h3, h4, ne_eq, not_true_eq_false, or_self, and_false, if_false]
  split <;> simp [Begin_of_inited, hini]

/-- C3 witness: the theorem at the engine produced by the default constructor,
reapplying the default configuration. -/
theorem setConfig_no_resize_buffer_identity_witness :
    (demoInited.2.inited = true ∧
      defaultConfig.fftlength = demoInited.2.Config.fftlength ∧
      defaultConfig.samplefreq = demoInited.2.Config.samplefreq ∧
      defaultConfig.numranges = demoInited.2.Config.numranges ∧
      defaultConfig.mfcccoeff = demoInited.2.Config.mfcccoeff) ∧
    ((setConfig demoInited.1 demoInited.2 defaultConfig allAlloc).2.signal
        = demoInited.2.signal ∧
      (setConfig demoInited.1 demoInited.2 defaultConfig allAlloc).2.spectrum
        = demoInited.2.spectrum ∧
      (setConfig demoInited.1 demoInited.2 defaultConfig allAlloc).2.Signature
        = demoInited.2.Signature ∧
      (setConfig demoInited.1 demoInited.2 defaultConfig allAlloc).2.FFT
        = demoInited.2.FFT ∧
      (setConfig demoInited.1 demoInited.2 defaultConfig allAlloc).2.mfcc
        = demoInited.2.mfcc ∧
      (setConfig demoInited.1 demoInited.2 defaultConfig allAlloc).2.yin
        = demoInited.2.yin) :=
  ⟨⟨by decide, by decide, by decide, by decide, by decide⟩,
    setConfig_no_resize_buffer_identity demoInited.1 demoInited.2 defaultConfig allAlloc
      (by decide) (by decide) (by decide) (by decide) (by decide)⟩

/-! ## Claim C9: `getConfig` returns a first-call snapshot -/

/-- C9: `getConfig` captures a static copy of the stored configuration on its
first invocation; after a later `setConfig` that changes the stored
configuration (here: a different sample rate), `getConfig` still returns the
first-call snapshot, which differs from the engine's current configuration. -/
theorem getConfig_first_call_snapshot (w : World) (e : Engine) (cfg : AnalyzerConfig)
    (o : AllocOracle) (hc : e.getConfigCache = none)
    (hs : cfg.samplefreq ≠ e.Config.samplefreq) :
    (getConfig e).2 = e.Config ∧
    (setConfig w (getConfig e).1 cfg o).2.Config.samplefreq = cfg.samplefreq ∧
    (getConfig (setConfig w (getConfig e).1 cfg o).2).2 = e.Config ∧
    (getConfig (setConfig w (getConfig e).1 cfg o).2).2 ≠
      (setConfig w (getConfig e).1 cfg o).2.Config := by
  have h1 := getConfig_of_none e hc
  have h2 : (setConfig w (getConfig e).1 cfg o).2.getConfigCache = some e.Config := by
    rw [h1, setConfig_cache]
  have h3 : (getConfig (setConfig w (getConfig e).1 cfg o).2).2 = e.Config := by
    rw [getConfig_of_some _ _ h2]
  refine ⟨by rw [h1], setConfig_samplefreq w _ cfg o, h3, ?_⟩
  rw [h3]
  intro heq
  exact hs ((congrArg AnalyzerConfig.samplefreq heq).trans
    (setConfig_samplefreq w _ cfg o)).symm

/-- C9 witness: a fresh engine, first `getConfig`, then a `setConfig` halving
the sample rate. -/
theorem getConfig_first_call_snapshot_witness :
    ((freshEngine defaultConfig).getConfigCache = none ∧
      ({ defaultConfig with samplefreq := 22050 } : AnalyzerConfig).samplefreq
        ≠ (freshEngine defaultConfig).Config.samplefreq) ∧
    ((getConfig (freshEngine defaultConfig)).2 = (freshEngine defaultConfig).Config ∧
      (setConfig initialWorld (getConfig (freshEngine defaultConfig)).1
          { defaultConfig with samplefreq := 22050 } allAlloc).2.Config.samplefreq
        = ({ defaultConfig with samplefreq := 22050 } : AnalyzerConfig).samplefreq ∧
      (getConfig (setConfig initialWorld (getConfig (freshEngine defaultConfig)).1
          { defaultConfig with samplefreq := 22050 } allAlloc).2).2
        = (freshEngine defaultConfig).Config ∧
      (getConfig (setConfig initialWorld (getConfig (freshEngine defaultConfig)).1
          { defaultConfig with samplefreq := 22050 } allAlloc).2).2
        ≠ (setConfig initialWorld (getConfig (freshEngine defaultConfig)).1
          { defaultConfig with samplefreq := 22050 } allAlloc).2.Config) :=
  ⟨⟨rfl, by decide⟩,
    getConfig_first_call_snapshot initialWorld (freshEngine defaultConfig)
      { defaultConfig with samplefreq := 22050 } allAlloc rfl (by decide)⟩

/-! ## Claim C10: in-place mutation of the shared default range array -/

/-- C10: with the default ranges pointer and a transform length `L` different
from the default 512, every `setConfig` call multiplies each entry of the
shared static `DefaultRanges` array in place by `L/512` in 32-bit unsigned
arithmetic, so the mutation is seen through the default pointer (and hence by
`defaultConfig()` and every other instance holding it) and compounds on a
second application — while the fuzz factor, recomputed from the compile-time
constant on each call, stays at `32·L/512` without compounding. -/
theorem setConfig_compounds_shared_default_ranges (w : World) (e : Engine)
    (cfg : AnalyzerConfig) (o : AllocOracle)
    (hr : cfg.ranges = RangesPtr.defaultPtr)
    (hL : cfg.fftlength ≠ ANALYZER_DEFAULT_FFTLENGTH)
    (hn : cfg.numranges = w.defaultRanges.length) :
    (setConfig w e cfg o).1.defaultRanges
        = w.defaultRanges.map
            (fun v => v * cfg.fftlength % UINT32_MOD / ANALYZER_DEFAULT_FFTLENGTH) ∧
    (setConfig w e cfg o).2.Config.fuzzfactor
        = ANALYZER_DEFAULT_FUZZFACTOR * cfg.fftlength % UINT32_MOD /
            ANALYZER_DEFAULT_FFTLENGTH ∧
    readRanges (setConfig w e cfg o).1 defaultConfig.ranges
        = w.defaultRanges.map
            (fun v => v * cfg.fftlength % UINT32_MOD / ANALYZER_DEFAULT_FFTLENGTH) ∧
    (setConfig (setConfig w e cfg o).1 (setConfig w e cfg o).2 cfg o).1.defaultRanges
        = (w.defaultRanges.map
            (fun v => v * cfg.fftlength % UINT32_MOD / ANALYZER_DEFAULT_FFTLENGTH)).map
            (fun v => v * cfg.fftlength % UINT32_MOD / ANALYZER_DEFAULT_FFTLENGTH) ∧
    (setConfig (setConfig w e cfg o).1 (setConfig w e cfg o).2 cfg o).2.Config.fuzzfactor
        = ANALYZER_DEFAULT_FUZZFACTOR * cfg.fftlength % UINT32_MOD /
            ANALYZER_DEFAULT_FFTLENGTH := by
  obtain ⟨hw1, hf1, -, -, -⟩ := setConfig_world_rescale w e cfg o hr hL
  have hmap1 : (setConfig w e cfg o).1.defaultRanges
      = w.defaultRanges.map
          (fun v => v * cfg.fftlength % UINT32_MOD / ANALYZER_DEFAULT_FFTLENGTH) := by
    rw [hw1, hn, rescaleRanges_eq_map]
  obtain ⟨hw2, hf2, -, -, -⟩ :=
    setConfig_world_rescale (setConfig w e cfg o).1 (setConfig w e cfg o).2 cfg o hr hL
  have hmap2 : (setConfig (setConfig w e cfg o).1 (setConfig w e cfg o).2 cfg o).1.defaultRanges
      = (w.defaultRanges.map
          (fun v => v * cfg.fftlength % UINT32_MOD / ANALYZER_DEFAULT_FFTLENGTH)).map
          (fun v => v * cfg.fftlength % UINT32_MOD / ANALYZER_DEFAULT_FFTLENGTH) := by
    rw [hw2, hmap1]
    have hlen : cfg.numranges
        = (w.defaultRanges.map
            (fun v => v * cfg.fftlength % UINT32_MOD / ANALYZER_DEFAULT_FFTLENGTH)).length := by
      rw [List.length_map, hn]
    rw [hlen, rescaleRanges_eq_map]
  refine ⟨hmap1, hf1, ?_, hmap2, hf2⟩
  rw [show defaultConfig.ranges = RangesPtr.defaultPtr from rfl]
  simpa [readRanges] using hmap1

/-- C10 witness: starting from the pristine world, two applications of the
default configuration altered to `L = 1024` scale the shared array by 2 and
then by 2 again (it ends at four times the baseline), while the fuzz factor
is 64 after both calls. -/
theorem setConfig_compounds_shared_default_ranges_witness :
    (({ defaultConfig with fftlength := 1024 } : AnalyzerConfig).ranges
        = RangesPtr.defaultPtr ∧
      ({ defaultConfig with fftlength := 1024 } : AnalyzerConfig).fftlength
        ≠ ANALYZER_DEFAULT_FFTLENGTH ∧
      ({ defaultConfig with fftlength := 1024 } : AnalyzerConfig).numranges
        = initialWorld.defaultRanges.length) ∧
    ((setConfig initialWorld (freshEngine { defaultConfig with fftlength := 1024 })
          { defaultConfig with fftlength := 1024 } allAlloc).1.defaultRanges
        = initialWorld.defaultRanges.map
            (fun v => v * ({ defaultConfig with fftlength := 1024 } :
                AnalyzerConfig).fftlength % UINT32_MOD / ANALYZER_DEFAULT_FFTLENGTH) ∧
      (setConfig initialWorld (freshEngine { defaultConfig with fftlength := 1024 })
          { defaultConfig with fftlength := 1024 } allAlloc).2.Config.fuzzfactor
        = ANALYZER_DEFAULT_FUZZFACTOR * ({ defaultConfig with fftlength := 1024 } :
            AnalyzerConfig).fftlength % UINT32_MOD / ANALYZER_DEFAULT_FFTLENGTH ∧
      readRanges (setConfig initialWorld
          (freshEngine { defaultConfig with fftlength := 1024 })
          { defaultConfig with fftlength := 1024 } allAlloc).1 defaultConfig.ranges
        = initialWorld.defaultRanges.map
            (fun v => v * ({ defaultConfig with fftlength := 1024 } :
                AnalyzerConfig).fftlength % UINT32_MOD / ANALYZER_DEFAULT_FFTLENGTH) ∧
      (setConfig (setConfig initialWorld
            (freshEngine { defaultConfig with fftlength := 1024 })
            { defaultConfig with fftlength := 1024 } allAlloc).1
          (setConfig initialWorld (freshEngine { defaultConfig with fftlength := 1024 })
            { defaultConfig with fftlength := 1024 } allAlloc).2
          { defaultConfig with fftlength := 1024 } allAlloc).1.defaultRanges
        = (initialWorld.defaultRanges.map
            (fun v => v * ({ defaultConfig with fftlength := 1024 } :
                AnalyzerConfig).fftlength % UINT32_MOD / ANALYZER_DEFAULT_FFTLENGTH)).map
            (fun v => v * ({ defaultConfig with fftlength := 1024 } :
                AnalyzerConfig).fftlength % UINT32_MOD / ANALYZER_DEFAULT_FFTLENGTH) ∧
      (setConfig (setConfig initialWorld
            (freshEngine { defaultConfig with fftlength := 1024 })
            { defaultConfig with fftlength := 1024 } allAlloc).1
          (setConfig initialWorld (freshEngine { defaultConfig with fftlength := 1024 })
            { defaultConfig with fftlength := 1024 } allAlloc).2
          { defaultConfig with fftlength := 1024 } allAlloc).2.Config.fuzzfactor
        = ANALYZER_DEFAULT_FUZZFACTOR * ({ defaultConfig with fftlength := 1024 } :
            AnalyzerConfig).fftlength % UINT32_MOD / ANALYZER_DEFAULT_FFTLENGTH) :=
  ⟨⟨rfl, by decide, by decide⟩,
    setConfig_compounds_shared_default_ranges initialWorld
      (freshEngine { defaultConfig with fftlength := 1024 })
      { defaultConfig with fftlength := 1024 } allAlloc rfl (by decide) (by decide)⟩

/-! ## Claim C4: disabled features -/

/-- C4: the two pointer-returning features are genuine opt-outs — `getMfcc`
returns null whenever the coefficient count is 0 and `getSignature` returns
null whenever the range count is 0, for every input spectrum — but a zero
sensitivity does *not* disable decibel computation: `decibelSPL` evaluates
`round(20·log10(rms/0) − gain + 94)` unconditionally (third conjunct), a
division by zero, although the configuration comments in the source promise
`sensitivity 0 = switch off`. -/
theorem disabled_feature_guards (mfccCalc : (Nat → ℚ) → List ℚ)
    (log10f sqrtf logf : ℚ → ℚ) (cfg : AnalyzerConfig) (bins signal : Nat → ℚ)
    (siglen NumBins : Nat) (ranges : List Nat) (Fr : ℚ)
    (hm : cfg.mfcccoeff = 0) (hr : cfg.numranges = 0) (hs : cfg.sensitivity = 0) :
    getMfcc mfccCalc cfg bins = none ∧
    getSignature logf Fr cfg.numranges ranges bins NumBins = none ∧
    decibelSPL log10f sqrtf cfg signal siglen
      = (roundQ (20 * log10f (rms sqrtf cfg.fftlength signal siglen / 0)
          - (cfg.gain : ℚ) + 94)).toNat % UINT16_MOD := by
  refine ⟨?_, ?_, ?_⟩
  · simp [getMfcc, hm]
  · simp [getSignature, hr]
  · simp [decibelSPL, hs]

/-- C4 witness: the all-disabled configuration applied to the zero spectrum
and zero signal, with the identity function standing in for the
transcendental parameters. -/
theorem disabled_feature_guards_witness :
    (({ defaultConfig with mfcccoeff := 0, numranges := 0, sensitivity := 0 } :
        AnalyzerConfig).mfcccoeff = 0 ∧
      ({ defaultConfig with mfcccoeff := 0, numranges := 0, sensitivity := 0 } :
        AnalyzerConfig).numranges = 0 ∧
      ({ defaultConfig with mfcccoeff := 0, numranges := 0, sensitivity := 0 } :
        AnalyzerConfig).sensitivity = 0) ∧
    (getMfcc (fun _ => [])
        { defaultConfig with mfcccoeff := 0, numranges := 0, sensitivity := 0 }
        (fun _ => 0) = none ∧
      getSignature id 1
        ({ defaultConfig with mfcccoeff := 0, numranges := 0, sensitivity := 0 } :
          AnalyzerConfig).numranges [] (fun _ => 0) 256 = none ∧
      decibelSPL id id
        { defaultConfig with mfcccoeff := 0, numranges := 0, sensitivity := 0 }
        (fun _ => 0) 0
        = (roundQ (20 * id (rms id
            ({ defaultConfig with mfcccoeff := 0, numranges := 0, sensitivity := 0 } :
              AnalyzerConfig).fftlength (fun _ => 0) 0 / 0)
            - (({ defaultConfig with mfcccoeff := 0, numranges := 0, sensitivity := 0 } :
              AnalyzerConfig).gain : ℚ) + 94)).toNat % UINT16_MOD) :=
  ⟨⟨rfl, rfl, rfl⟩,
    disabled_feature_guards (fun _ => []) id id id
      { defaultConfig with mfcccoeff := 0, numranges := 0, sensitivity := 0 }
      (fun _ => 0) (fun _ => 0) 0 256 [] 1 rfl rfl rfl⟩

/-! ## Helper lemmas: the `getFeatures` loops on a zero spectrum -/

theorem featuresLoop1_zero (logf : ℚ → ℚ) (Fr : ℚ) (bins : Nat → ℚ) (l : List Nat)
    (hz : ∀ i ∈ l, bins i = 0) (s : SpecAccum)
    (h1 : s.sumAmplitudes = 0) (h2 : s.sumcVal = 0) (h3 : s.maxcVal = 0) :
    (l.foldl (featuresLoop1Step logf Fr bins) s).sumAmplitudes = 0 ∧
    (l.foldl (featuresLoop1Step logf Fr bins) s).sumcVal = 0 ∧
    (l.foldl (featuresLoop1Step logf Fr bins) s).maxcVal = 0 := by
  induction l generalizing s with
  | nil => exact ⟨h1, h2, h3⟩
  | cons i rest ih =>
    have hb : bins i = 0 := hz i (List.mem_cons_self i rest)
    refine ih (fun j hj => hz j (List.mem_cons_of_mem i hj)) _ ?_ ?_ ?_ <;>
      simp [featuresLoop1Step, hb, h1, h2, h3]

theorem featuresLoop2_zero (NB : Nat) (centroid meanVal threshold : ℚ)
    (bins : Nat → ℚ) (l : List Nat) (hz : ∀ i ∈ l, bins i = 0)
    (hmean : meanVal = 0) (hth : 0 ≤ threshold) (s : MomentAccum)
    (h1 : s.rolloff = 0) (h2 : s.roloff_sum = 0) (h3 : s.moment2 = 0) :
    (l.foldl (featuresLoop2Step NB centroid meanVal threshold bins) s).rolloff = 0 ∧
    (l.foldl (featuresLoop2Step NB centroid meanVal threshold bins) s).moment2 = 0 := by
  induction l generalizing s with
  | nil => exact ⟨h1, h3⟩
  | cons i rest ih =>
    have hb : bins i = 0 := hz i (List.mem_cons_self i rest)
    have hnotgt : ¬ threshold < 0 := not_lt.mpr hth
    refine ih (fun j hj => hz j (List.mem_cons_of_mem i hj)) _ ?_ ?_ ?_ <;>
      simp [featuresLoop2Step, hb, h1, h2, h3, hmean, hnotgt]

/-! ## Claim C5: spectral statistics of the all-zero spectrum -/

/-- C5: for every magnitude spectrum whose bins `1 .. N-1` are all zero
(bin 0 is excluded by the loops), `getFeatures` yields average magnitude 0,
crest 1, kurtosis −3 and rolloff 0, for any interpretation of the
transcendental parameters. -/
theorem getFeatures_all_zero (logf expf sqrtf : ℚ → ℚ) (pct Fr : ℚ) (bins : Nat → ℚ)
    (N : Nat) (hN : 1 ≤ N) (hz : ∀ i, 1 ≤ i → i < N → bins i = 0) :
    (getFeatures logf expf sqrtf pct Fr bins N).avgmag = 0 ∧
    (getFeatures logf expf sqrtf pct Fr bins N).crest = 1 ∧
    (getFeatures logf expf sqrtf pct Fr bins N).kurtosis = -3 ∧
    (getFeatures logf expf sqrtf pct Fr bins N).rolloff = 0 := by
  have hz2 : ∀ i ∈ List.range' 1 (N - 1), bins i = 0 := by
    intro i hi
    rw [List.mem_range'_1] at hi
    exact hz i hi.1 (by omega)
  obtain ⟨ha1, ha2, ha3⟩ :=
    featuresLoop1_zero logf Fr bins (List.range' 1 (N - 1)) hz2 ⟨0, 0, 0, 0, 0, 0, 0, 0⟩
      rfl rfl rfl
  unfold getFeatures
  simp only [ha1, ha2, ha3, zero_div, mul_zero, gt_iff_lt, lt_irrefl, if_false,
    lt_self_iff_false]
  obtain ⟨hm1, hm2⟩ :=
    featuresLoop2_zero N 0 0 0 bins (List.range' 1 (N - 1)) hz2 rfl le_rfl
      ⟨0, 0, 0, 0, 0, 0⟩ rfl rfl rfl
  simp [hm1, hm2]

/-- C5 witness: the zero spectrum with four bins and identity transcendental
parameters. -/
theorem getFeatures_all_zero_witness :
    (1 ≤ 4 ∧ ∀ i : Nat, 1 ≤ i → i < 4 → (fun _ => (0 : ℚ)) i = 0) ∧
    ((getFeatures id id id (85 / 100) 1 (fun _ => (0 : ℚ)) 4).avgmag = 0 ∧
      (getFeatures id id id (85 / 100) 1 (fun _ => (0 : ℚ)) 4).crest = 1 ∧
      (getFeatures id id id (85 / 100) 1 (fun _ => (0 : ℚ)) 4).kurtosis = -3 ∧
      (getFeatures id id id (85 / 100) 1 (fun _ => (0 : ℚ)) 4).rolloff = 0) :=
  ⟨⟨by omega, fun i _ _ => rfl⟩,
    getFeatures_all_zero id id id (85 / 100) 1 (fun _ => (0 : ℚ)) 4 (by omega)
      (fun i _ _ => rfl)⟩

/-! ## Claim C6: the fingerprint hash -/

/-- C6 counterexample.  The claim states that shifting a single signature
value by less than the fuzz factor never changes its quantized contribution
to the hash.  A shift of 1 (< 32) from 31 to 32 crosses the 32-boundary of
the quantization bucket and changes both the quantized value and the hash. -/
theorem signatureHash_small_shift_counterexample :
    32 - 31 < 32 ∧
    signatureHash 32 [31] ≠ signatureHash 32 [32] ∧
    quantize 32 31 ≠ quantize 32 32 := by decide

/-- C6 (amended): the hash is deterministic (equal signature arrays hash
equally); it is exactly the right-to-left fold seeded with 5381 that
multiplies the running hash by 33 (mod 2^32) and xors in the quantized value
`v − (v % fuzz)`; replacing one element by another with the same quantized
value leaves the hash unchanged; and a shift by `d` below the fuzz factor
preserves the quantized contribution provided it does not cross a multiple of
the fuzz factor (`v % fuzz + d < fuzz`). -/
theorem signatureHash_deterministic_djb2_bucket (fz : Nat) :
    (∀ s1 s2 : List Nat, s1 = s2 → signatureHash fz s1 = signatureHash fz s2) ∧
    (∀ s : List Nat,
        signatureHash fz s
          = s.foldr (fun v h => (h * 33 % UINT32_MOD) ^^^ quantize fz v) 5381) ∧
    (∀ (s : List Nat) (i v : Nat),
        quantize fz v = quantize fz (s.getD i 0) →
        signatureHash fz (s.set i v) = signatureHash fz s) ∧
    (∀ v d : Nat, v % fz + d < fz → quantize fz (v + d) = quantize fz v) := by
  refine ⟨fun s1 s2 h => by rw [h], ?_, ?_, ?_⟩
  · intro s
    induction s with
    | nil => rfl
    | cons v rest ih => simp [signatureHash, ih]
  · intro s
    induction s with
    | nil => intro i v _; rfl
    | cons a rest ih =>
      intro i v hq
      cases i with
      | zero =>
        simp only [List.set, signatureHash]
        simp only [List.getD] at hq
        simp [hq]
      | succ j =>
        simp only [List.set, signatureHash]
        rw [ih j v (by simpa [List.getD] using hq)]
  · intro v d h
    have hd : d < fz := by omega
    have hmod : (v + d) % fz = v % fz + d := by
      rw [Nat.add_mod, Nat.mod_eq_of_lt hd, Nat.mod_eq_of_lt]
      omega
    have hle : v % fz ≤ v := Nat.mod_le v fz
    unfold quantize
    omega

/-- C6 witness: at fuzz factor 32 — determinism on a concrete signature, a
within-bucket replacement (40 for 33) that keeps the hash, and a shift of 30
from 33 that stays inside the bucket. -/
theorem signatureHash_deterministic_djb2_bucket_witness :
    (signatureHash 32 [100, 200] = signatureHash 32 [100, 200] ∧
      signatureHash 32 [100, 200]
        = [100, 200].foldr (fun v h => (h * 33 % UINT32_MOD) ^^^ quantize 32 v) 5381 ∧
      signatureHash 32 ([33].set 0 40) = signatureHash 32 [33] ∧
      quantize 32 (33 + 30) = quantize 32 33) :=
  ⟨(signatureHash_deterministic_djb2_bucket 32).1 [100, 200] [100, 200] rfl,
    (signatureHash_deterministic_djb2_bucket 32).2.1 [100, 200],
    (signatureHash_deterministic_djb2_bucket 32).2.2.1 [33] 0 40 (by decide),
    (signatureHash_deterministic_djb2_bucket 32).2.2.2 33 30 (by decide)⟩

/-! ## Helper lemmas: the range-search loop of the fingerprint generator -/

theorem rangeLoop_range'_none (ranges : List Nat) (idx s k : Nat)
    (h : ∀ j, s ≤ j → j < s + k → ranges.getD j 0 ≤ idx) :
    rangeLoop ranges idx (List.range' s k) = none := by
  induction k generalizing s with
  | zero => rfl
  | succ n ih =>
    rw [List.range'_succ]
    simp only [rangeLoop]
    rw [if_neg (by have := h s le_rfl (by omega); omega)]
    exact ih (s + 1) (fun j hj1 hj2 => h j (by omega) (by omega))

theorem rangeLoop_range'_found (ranges : List Nat) (idx s k r : Nat)
    (hs : s ≤ r) (hr : r < s + k) (hsat : idx < ranges.getD r 0)
    (hmin : ∀ j, s ≤ j → j < r → ranges.getD j 0 ≤ idx) :
    rangeLoop ranges idx (List.range' s k) = some r := by
  induction k generalizing s with
  | zero => omega
  | succ n ih =>
    rw [List.range'_succ]
    simp only [rangeLoop]
    by_cases hsr : s = r
    · subst hsr; rw [if_pos hsat]
    · rw [if_neg (by have := hmin s le_rfl (by omega); omega)]
      exact ih (s + 1) (by omega) (by omega) (fun j hj1 hj2 => hmin j (by omega) hj2)

/-! ## Claim C7: bin-to-range assignment and below-average suppression -/

/-- C7: in `getSignature`, a scanned bin index is assigned to the first range
whose boundary strictly exceeds it, and to the last range (`numranges - 1`)
when no boundary exceeds it; and after the scan, every range whose per-range
peak log-compressed magnitude is strictly below the mean of all per-range
peaks has its stored signature frequency zeroed. -/
theorem getSignature_range_assignment_and_suppression
    (logf : ℚ → ℚ) (Fr : ℚ) (n : Nat) (ranges : List Nat) (bins : Nat → ℚ) (NB : Nat)
    (hn : n ≠ 0) :
    (∀ idx r, r < n → idx < ranges.getD r 0 → (∀ j, j < r → ranges.getD j 0 ≤ idx) →
        rangeIndex ranges n idx = r) ∧
    (∀ idx, (∀ j, j < n → ranges.getD j 0 ≤ idx) → rangeIndex ranges n idx = n - 1) ∧
    (∀ r, r < n →
        (signatureScan logf Fr n ranges bins NB).2.getD r 0
          < (signatureScan logf Fr n ranges bins NB).2.foldl (fun a b => a + b) 0 / (n : ℚ) →
        ∃ l, getSignature logf Fr n ranges bins NB = some l ∧ l.getD r 0 = 0) := by
  refine ⟨?_, ?_, ?_⟩
  · intro idx r hr hsat hmin
    unfold rangeIndex
    rw [List.range_eq_range',
      rangeLoop_range'_found ranges idx 0 n r (Nat.zero_le r) (by omega) hsat
        (fun j _ hj => hmin j hj)]
  · intro idx h
    unfold rangeIndex
    rw [List.range_eq_range',
      rangeLoop_range'_none ranges idx 0 n (fun j _ hj => h j (by omega))]
  · intro r hr hb
    refine ⟨_, by unfold getSignature; rw [if_neg hn], ?_⟩
    have hget : ((List.range n).map (fun r =>
        if (signatureScan logf Fr n ranges bins NB).2.getD r 0
            < (signatureScan logf Fr n ranges bins NB).2.foldl (fun a b => a + b) 0 / (n : ℚ)
        then 0 else (signatureScan logf Fr n ranges bins NB).1.getD r 0))[r]?
          = some (if (signatureScan logf Fr n ranges bins NB).2.getD r 0
            < (signatureScan logf Fr n ranges bins NB).2.foldl (fun a b => a + b) 0 / (n : ℚ)
        then 0 else (signatureScan logf Fr n ranges bins NB).1.getD r 0) := by
      rw [List.getElem?_map, List.getElem?_range hr]
      rfl
    rw [List.getD_eq_getElem?_getD, hget, Option.getD_some, if_pos hb]

/-- C7 witness: a two-range profile with boundaries `[2, 4]` over four bins. -/
theorem getSignature_range_assignment_and_suppression_witness :
    (2 : Nat) ≠ 0 ∧
    ((∀ idx r, r < 2 → idx < [2, 4].getD r 0 → (∀ j, j < r → [2, 4].getD j 0 ≤ idx) →
        rangeIndex [2, 4] 2 idx = r) ∧
      (∀ idx, (∀ j, j < 2 → [2, 4].getD j 0 ≤ idx) → rangeIndex [2, 4] 2 idx = 2 - 1) ∧
      (∀ r, r < 2 →
        (signatureScan id 1 2 [2, 4] (fun i => (i : ℚ)) 4).2.getD r 0
          < (signatureScan id 1 2 [2, 4] (fun i => (i : ℚ)) 4).2.foldl
              (fun a b => a + b) 0 / (2 : ℚ) →
        ∃ l, getSignature id 1 2 [2, 4] (fun i => (i : ℚ)) 4 = some l ∧ l.getD r 0 = 0)) :=
  ⟨by decide,
    getSignature_range_assignment_and_suppression id 1 2 [2, 4] (fun i => (i : ℚ)) 4
      (by decide)⟩

/-! ## Helper lemmas: YIN difference function on the all-zero frame -/

theorem foldl_const_acc (l : List Nat) (c : ℚ) : l.foldl (fun acc _ => acc) c = c := by
  induction l generalizing c with
  | nil => rfl
  | cons a t ih => exact ih c

theorem diffFunction_zero_frame (L tau : Nat) :
    diffFunction (fun _ => (0 : ℚ)) L tau = 0 := by
  simp [diffFunction, foldl_const_acc]

theorem cumSum_zero_frame (L tau : Nat) :
    cumSum (fun _ => (0 : ℚ)) L tau = 0 := by
  simp [cumSum, diffFunction_zero_frame, foldl_const_acc]

theorem delta_zero_frame (L tau : Nat) :
    delta (fun _ => (0 : ℚ)) L tau = if tau = 0 then 1 else 0 := by
  unfold delta
  rcases eq_or_ne tau 0 with h | h
  · simp [h]
  · simp [h, cumSum_zero_frame, diffFunction_zero_frame]

theorem roundQ_three : roundQ 3 = 3 := by
  unfold roundQ
  rw [if_pos (by norm_num), Int.floor_eq_iff]
  norm_num

theorem recentMinimaCheck_zero_frame (i : Int) (h1 : 2 ≤ i) :
    recentMinimaCheck (delta (fun _ => (0 : ℚ)) 32) 32 i = false := by
  unfold recentMinimaCheck
  have h2 : delta (fun _ => (0 : ℚ)) 32 i.toNat = 0 := by
    rw [delta_zero_frame, if_neg (by omega)]
  have h3 : delta (fun _ => (0 : ℚ)) 32 (i.toNat - 1) = 0 := by
    rw [delta_zero_frame, if_neg (by omega)]
  rw [h2, h3]
  simp

theorem searchRecent_zero_frame :
    searchForOtherRecentMinima (delta (fun _ => (0 : ℚ)) 32) 32 3 = -1 := by
  have c2 := recentMinimaCheck_zero_frame (2 : Int) (by omega)
  have c3 := recentMinimaCheck_zero_frame (3 : Int) (by omega)
  have c4 := recentMinimaCheck_zero_frame (4 : Int) (by omega)
  unfold searchForOtherRecentMinima
  rw [roundQ_three]
  simp [c2, c3, c4]

theorem getPeriodCandidate_zero_frame :
    getPeriodCandidate (delta (fun _ => (0 : ℚ)) 32) 32 = 30 := by
  unfold getPeriodCandidate
  norm_num [periodCandidateLoop, List.range', delta_zero_frame]

theorem chosenPeriod_zero_frame :
    chosenPeriod (fun _ => (0 : ℚ)) 32 3 = 30 := by
  unfold chosenPeriod
  rw [searchRecent_zero_frame]
  simp [getPeriodCandidate_zero_frame]

/-! ## Claim C8: interior lags and parabolic interpolation -/

/-- C8 counterexample.  The claim states the interpolation degenerates to the
unrefined lag *exactly* when all three difference-function values are equal;
but at `y1 = y3 = 1, y2 = 0` (not all equal) the vertex shift
`(y3-y1)/(2(2·y2-y3-y1))` is zero and the unrefined lag 5 is returned
anyway. -/
theorem parabolicInterpolation_equal_neighbours_counterexample :
    parabolicInterpolation 5 1 0 1 = 5 ∧ ¬((1 : ℚ) = 0 ∧ (0 : ℚ) = 1) := by
  constructor
  · unfold parabolicInterpolation
    norm_num
  · norm_num

/-- C8 (amended): when the chosen lag is strictly interior (neither the first
nor the last candidate index), `pitchYin` refines it by parabolic
interpolation over its two neighbours, returns `sampleRate / refinedLag` and
persists the refined lag as the next continuity anchor; the interpolation
returns the unrefined lag whenever all three difference-function values are
equal (the guarded degenerate case — though, per the counterexample, not
exclusively then); and on every call the returned frequency is the sample
rate divided by the persisted refined lag. -/
theorem pitchYin_interior_refinement (fs framesz : Nat) (prev : ℚ) (f : Nat → ℚ)
    (hp : 0 < chosenPeriod f (framesz / 2) prev)
    (hl : chosenPeriod f (framesz / 2) prev < framesz / 2 - 1) :
    pitchYin fs framesz prev f
      = ((fs : ℚ) / parabolicInterpolation (chosenPeriod f (framesz / 2) prev)
            (delta f (framesz / 2) (chosenPeriod f (framesz / 2) prev - 1))
            (delta f (framesz / 2) (chosenPeriod f (framesz / 2) prev))
            (delta f (framesz / 2) (chosenPeriod f (framesz / 2) prev + 1)),
         parabolicInterpolation (chosenPeriod f (framesz / 2) prev)
            (delta f (framesz / 2) (chosenPeriod f (framesz / 2) prev - 1))
            (delta f (framesz / 2) (chosenPeriod f (framesz / 2) prev))
            (delta f (framesz / 2) (chosenPeriod f (framesz / 2) prev + 1))) ∧
    (∀ (p : Nat) (y : ℚ), parabolicInterpolation p y y y = (p : ℚ)) ∧
    (∀ (fs2 framesz2 : Nat) (prev2 : ℚ) (f2 : Nat → ℚ),
        (pitchYin fs2 framesz2 prev2 f2).1
          = (fs2 : ℚ) / (pitchYin fs2 framesz2 prev2 f2).2) := by
  refine ⟨?_, ?_, ?_⟩
  · simp only [pitchYin]
    rw [if_pos (And.intro hp hl)]
  · intro p y
    unfold parabolicInterpolation
    rw [if_pos (And.intro rfl rfl)]
  · intro fs2 framesz2 prev2 f2
    rfl

/-- C8 witness: the all-zero frame of 64 samples with previous estimate 3;
the continuity search finds nothing, the fresh scan settles on the floor lag
30, which is strictly interior (0 < 30 < 31). -/
theorem pitchYin_interior_refinement_witness :
    (0 < chosenPeriod (fun _ => (0 : ℚ)) (64 / 2) 3 ∧
      chosenPeriod (fun _ => (0 : ℚ)) (64 / 2) 3 < 64 / 2 - 1) ∧
    (pitchYin 8192 64 3 (fun _ => (0 : ℚ))
        = ((8192 : ℚ) / parabolicInterpolation (chosenPeriod (fun _ => (0 : ℚ)) (64 / 2) 3)
              (delta (fun _ => (0 : ℚ)) (64 / 2) (chosenPeriod (fun _ => (0 : ℚ)) (64 / 2) 3 - 1))
              (delta (fun _ => (0 : ℚ)) (64 / 2) (chosenPeriod (fun _ => (0 : ℚ)) (64 / 2) 3))
              (delta (fun _ => (0 : ℚ)) (64 / 2) (chosenPeriod (fun _ => (0 : ℚ)) (64 / 2) 3 + 1)),
           parabolicInterpolation (chosenPeriod (fun _ => (0 : ℚ)) (64 / 2) 3)
              (delta (fun _ => (0 : ℚ)) (64 / 2) (chosenPeriod (fun _ => (0 : ℚ)) (64 / 2) 3 - 1))
              (delta (fun _ => (0 : ℚ)) (64 / 2) (chosenPeriod (fun _ => (0 : ℚ)) (64 / 2) 3))
              (delta (fun _ => (0 : ℚ)) (64 / 2) (chosenPeriod (fun _ => (0 : ℚ)) (64 / 2) 3 + 1))) ∧
      (∀ (p : Nat) (y : ℚ), parabolicInterpolation p y y y = (p : ℚ)) ∧
      (∀ (fs2 framesz2 : Nat) (prev2 : ℚ) (f2 : Nat → ℚ),
          (pitchYin fs2 framesz2 prev2 f2).1
            = (fs2 : ℚ) / (pitchYin fs2 framesz2 prev2 f2).2)) :=
  ⟨⟨by rw [show (64 : Nat) / 2 = 32 from rfl, chosenPeriod_zero_frame]; omega,
    by rw [show (64 : Nat) / 2 = 32 from rfl, chosenPeriod_zero_frame]; omega⟩,
    pitchYin_interior_refinement 8192 64 3 (fun _ => (0 : ℚ))
      (by rw [show (64 : Nat) / 2 = 32 from rfl, chosenPeriod_zero_frame]; omega)
      (by rw [show (64 : Nat) / 2 = 32 from rfl, chosenPeriod_zero_frame]; omega)⟩

end SoundAnalyzer
